import Mathlib

/-!
Verification development for the ImpactMedia backend
(src/backend/server.js, with src/unnamed/part_000 as a near-duplicate
variant).  The submission intake pipeline, file validators, folder naming,
session identification and analytics aggregation are shallowly embedded as
executable Lean functions; external effects (filesystem writes, SMTP sends,
the wall clock) are made explicit through an `Env` record and a `Trace` of
attempted side effects.
-/

namespace ImpactMedia

instance instDecEqExcept {ε α : Type} [DecidableEq ε] [DecidableEq α] :
    DecidableEq (Except ε α) := fun x y =>
  match x, y with
  | .ok a, .ok b =>
    if h : a = b then .isTrue (by rw [h])
    else .isFalse (by intro hc; cases hc; exact h rfl)
  | .error a, .error b =>
    if h : a = b then .isTrue (by rw [h])
    else .isFalse (by intro hc; cases hc; exact h rfl)
  | .ok _, .error _ => .isFalse (by intro hc; cases hc)
  | .error _, .ok _ => .isFalse (by intro hc; cases hc)

/-- A JS string-valued field that may be absent (`undefined`) or present.
JS truthiness for strings: `undefined`, `null` and `""` are falsy. -/
def strTruthy : Option String → Bool
  | none => false
  | some s => !s.isEmpty

/-- JS `toLowerCase()` (character-wise; ASCII case mapping, which is all
the allow-list comparison needs). -/
def jsToLower (s : String) : String :=
  String.mk (s.data.map Char.toLower)

/-- JS `startsWith`. -/
def jsStartsWith (s prefixStr : String) : Bool :=
  prefixStr.data.isPrefixOf s.data

/-- JS `endsWith`. -/
def jsEndsWith (s suffixStr : String) : Bool :=
  suffixStr.data.isSuffixOf s.data

/-- JS `\w` character class (ASCII word characters). -/
def jsWordChar (c : Char) : Bool :=
  c.isAlphanum || c = '_'

/-- JS `\s` character class, restricted to the ASCII whitespace characters
(space, tab, line feed, vertical tab, form feed, carriage return); the
non-ASCII members of `\s` are not relevant to any input considered here. -/
def jsWhitespace (c : Char) : Bool :=
  c = ' ' || c = '\t' || c = '\n' || c = '\x0b' || c = '\x0c' || c = '\r'

/-- `Buffer.byteLength(s, 'base64')` from Node: drop up to two trailing
`=` characters (the second only while more than one character remains),
then `(len * 3) >>> 2`.  Mirrors `lib/buffer.js` `base64ByteLength`. -/
def b64ByteLength (s : String) : Nat :=
  let n0 := s.length
  let n1 := if 0 < n0 && s.data.getD (n0 - 1) ' ' == '=' then n0 - 1 else n0
  let n2 := if 1 < n1 && s.data.getD (n1 - 1) ' ' == '=' then n1 - 1 else n1
  n2 * 3 / 4

/-- An uploaded attachment as the JSON body carries it:
`{ name, mimeType, data }`, every field possibly absent
(server.js treats each via JS truthiness). `data` is the base64 payload,
possibly with a `data:` URL prefix. -/
structure FileObj where
  name : Option String
  mimeType : Option String
  data : Option String
deriving DecidableEq, Inhabited

/-- server.js:55 `ALLOWED_AUDIO_TYPES`. -/
def ALLOWED_AUDIO_TYPES : List String :=
  ["audio/mpeg", "audio/mp3", "audio/mp4", "audio/x-mpeg"]

/-- server.js:62 `SERVER_CONFIG` (the static limits). -/
structure ServerConfigT where
  analyticsBatchSize : Nat
  dashboardUpdateFrequency : Nat
  maxImages : Nat
  maxAudioSize : Nat
  maxImageSize : Nat
  cacheTimeout : Nat
deriving DecidableEq

def SERVER_CONFIG : ServerConfigT :=
  { analyticsBatchSize := 500
    dashboardUpdateFrequency := 50
    maxImages := 6
    maxAudioSize := 10 * 1024 * 1024
    maxImageSize := 5 * 1024 * 1024
    cacheTimeout := 600 }

/-- server.js:122 `getFileExtension`: fixed MIME → extension lookup,
`null` when the type is unknown (or the field was absent). -/
def getFileExtension : Option String → Option String
  | some "image/jpeg" => some "jpg"
  | some "image/jpg" => some "jpg"
  | some "image/png" => some "png"
  | some "image/gif" => some "gif"
  | some "image/webp" => some "webp"
  | some "audio/mpeg" => some "mp3"
  | some "audio/mp3" => some "mp3"
  | some "audio/mp4" => some "mp4"
  | _ => none

/-- server.js:136 `validateAudioFile`.  Sequential hard checks, each throwing
(modelled as `Except.error` with the thrown message). -/
def validateAudioFile (fileObj : Option FileObj) : Except String Bool :=
  match fileObj with
  | none => .error "Invalid audio file: No MIME type detected"
  | some f =>
    if !strTruthy f.mimeType then
      .error "Invalid audio file: No MIME type detected"
    else
      let mime := jsToLower (f.mimeType.getD "")
      if !ALLOWED_AUDIO_TYPES.contains mime then
        .error ("Invalid audio format. Only MP3 files are allowed. Detected: "
          ++ f.mimeType.getD "")
      else if strTruthy f.name && !jsEndsWith (jsToLower (f.name.getD "")) ".mp3" then
        .error "Invalid file extension. Only .mp3 files are allowed."
      else if strTruthy f.data
          && b64ByteLength (f.data.getD "") > SERVER_CONFIG.maxAudioSize then
        .error "Audio file too large. Maximum size is 10MB."
      else
        .ok true

/-- The per-image check of server.js:166-176: MIME type truthy and starting
with the image marker. -/
def imgMimeOk (img : FileObj) : Bool :=
  strTruthy img.mimeType && jsStartsWith (img.mimeType.getD "") "image/"

/-- The per-image size check of server.js:171: only applied when `data` is
truthy (`img.data && Buffer.byteLength(...) > max`). -/
def imgSizeBad (img : FileObj) : Bool :=
  strTruthy img.data
    && b64ByteLength (img.data.getD "") > SERVER_CONFIG.maxImageSize

/-- An image attachment that passes both per-image checks. -/
def imageOk (img : FileObj) : Bool :=
  imgMimeOk img && !imgSizeBad img

/-- The error message thrown for the first offending attachment
(1-based index `i`): the MIME message when the type check fails, else the
size message. -/
def imageErrorMsg (i : Nat) (img : FileObj) : String :=
  if !imgMimeOk img then
    "File " ++ toString i ++ " is not a valid image."
  else
    "Image " ++ toString i ++ " is too large. Maximum size is 5MB."

/-- The `images.forEach((img, index) => ...)` body of server.js:166,
throwing at the first offending attachment. -/
def validateImagesLoop : List FileObj → Nat → Except String Bool
  | [], _ => .ok true
  | img :: rest, i =>
    if !imgMimeOk img then
      .error ("File " ++ toString (i + 1) ++ " is not a valid image.")
    else if imgSizeBad img then
      .error ("Image " ++ toString (i + 1) ++ " is too large. Maximum size is 5MB.")
    else
      validateImagesLoop rest (i + 1)

/-- server.js:159 `validateImageFiles`. -/
def validateImageFiles (images : List FileObj) : Except String Bool :=
  if images.isEmpty then .ok true
  else if images.length > SERVER_CONFIG.maxImages then
    .error ("Too many images. Maximum " ++ toString SERVER_CONFIG.maxImages ++ " allowed.")
  else
    validateImagesLoop images 0

/-- UTF-8 bytes of a code point, as plain naturals. -/
def utf8Bytes (n : Nat) : List Nat :=
  if n < 0x80 then [n]
  else if n < 0x800 then [0xC0 + n / 64, 0x80 + n % 64]
  else if n < 0x10000 then
    [0xE0 + n / 4096, 0x80 + n / 64 % 64, 0x80 + n % 64]
  else
    [0xF0 + n / 262144, 0x80 + n / 4096 % 64, 0x80 + n / 64 % 64, 0x80 + n % 64]

/-- Uppercase hexadecimal digit of `n < 16`. -/
def hexDigit (n : Nat) : Char :=
  if n < 10 then Char.ofNat (48 + n) else Char.ofNat (55 + n)

/-- The characters `encodeURIComponent` leaves unescaped:
alphanumerics and `- _ . ! ~ * ' ( )`. -/
def uriUnreserved (c : Char) : Bool :=
  c.isAlphanum || c = '-' || c = '_' || c = '.' || c = '!' || c = '~'
    || c = '*' || c = Char.ofNat 39 || c = '(' || c = ')'

/-- JS `encodeURIComponent`: unreserved characters pass through, every
other character is replaced by the `%HH` encoding of its UTF-8 bytes. -/
def encodeURIComponent (s : String) : String :=
  String.mk (s.data.foldr
    (fun c acc =>
      (if uriUnreserved c then [c]
       else (utf8Bytes c.toNat).foldr
         (fun b a => '%' :: hexDigit (b / 16) :: hexDigit (b % 16) :: a) [])
      ++ acc)
    [])

/-- The characters after the first comma. -/
def afterFirstComma : List Char → List Char
  | [] => []
  | ',' :: rest => rest
  | _ :: rest => afterFirstComma rest

/-- The characters before the first comma. -/
def untilComma : List Char → List Char
  | [] => []
  | ',' :: _ => []
  | c :: rest => c :: untilComma rest

/-- The base64 normalisation of server.js:186-190: when the payload contains
a comma, keep `split(',')[1]` — the segment between the first and second
comma (for a data-URL, its base64 body) — then remove every whitespace
character. -/
def stripB64 (d : String) : String :=
  let d1 :=
    if d.data.contains ',' then String.mk (untilComma (afterFirstComma d.data))
    else d
  String.mk (d1.data.filter (fun c => !jsWhitespace c))

/-- The external world as the pipeline sees it:
`nowIso` is what `new Date().toISOString()` returns, `writeOk p` tells
whether `fs.writeFileSync` at path `p` succeeds (a failed save is modelled
as writing nothing), and the three send flags tell whether the respective
`transporter.sendMail` call resolves. -/
structure Env where
  nowIso : String
  writeOk : String → Bool
  adminSendOk : Bool
  userSendOk : Bool
  sponsorSendOk : Bool

/-- Side effects attempted by one request: blob-store folders created,
file paths written, and recipients of attempted notification sends. -/
structure Trace where
  foldersCreated : List String
  filesWritten : List String
  sends : List String
deriving DecidableEq

def emptyTrace : Trace :=
  { foldersCreated := [], filesWritten := [], sends := [] }

/-- The reference returned by a successful save (server.js:206-209). -/
structure SavedRef where
  path : String
  url : String
deriving DecidableEq

/-- server.js:37 default admin recipient. -/
def RECIPIENT_EMAIL : String := "ai.impactmediastudio@gmail.com"

/-- server.js:44 `UPLOADS_ROOT`, modelled as the relative folder key root. -/
def UPLOADS_ROOT : String := "uploads"

/-- server.js:181 `saveBase64File`: reject absent/empty data, strip the
data-URL prefix and whitespace, reject payloads shorter than 100 base64
characters, then write the file and its metadata sidecar (one `Env.writeOk`
flag covers the `fs.writeFileSync` pair).  Returns the saved reference and
the list of paths written. -/
def saveBase64File (env : Env) (fileObj : FileObj) (targetFolder filename : String) :
    Except String SavedRef × List String :=
  match fileObj.data with
  | none => (.error "No file data provided", [])
  | some d =>
    if d.isEmpty then (.error "No file data provided", [])
    else
      let base64Data := stripB64 d
      if base64Data.isEmpty || base64Data.length < 100 then
        (.error "File data appears to be empty or too small", [])
      else
        let filePath := targetFolder ++ "/" ++ filename
        if env.writeOk filePath then
          (.ok { path := filePath, url := "/uploads/" ++ encodeURIComponent filename },
            [filePath, filePath ++ ".meta.txt"])
        else
          (.error "fs write failed", [])

/-- Destination filename for image `index` (0-based), server.js:224-225. -/
def photoFilename (index : Nat) (img : FileObj) : String :=
  "Photo_" ++ toString (index + 1) ++ "." ++ ((getFileExtension img.mimeType).getD "jpg")

/-- The file-reference string pushed for image `index` on a successful
save, server.js:227. -/
def photoLink (index : Nat) (img : FileObj) : String :=
  "Photo " ++ toString (index + 1) ++ ": "
    ++ ("/uploads/" ++ encodeURIComponent (photoFilename index img))

/-- The `formData.images.forEach((imgObj, index) => ...)` loop of
server.js:221-233: skip attachments with falsy `data`, otherwise try the
save, push a link on success, log and continue on failure.
Returns (links pushed, paths written). -/
def processImagesLoop (env : Env) (folderPath : String) :
    List FileObj → Nat → List String × List String
  | [], _ => ([], [])
  | img :: rest, index =>
    let tail := processImagesLoop env folderPath rest (index + 1)
    if strTruthy img.data then
      match saveBase64File env img folderPath (photoFilename index img) with
      | (.ok saved, w) =>
        (("Photo " ++ toString (index + 1) ++ ": " ++ saved.url) :: tail.1, w ++ tail.2)
      | (.error _, w) => (tail.1, w ++ tail.2)
    else
      tail

/-- server.js:213 folder-name sanitisation:
`subFolderName.replace(/[^\w\s-]/g, '').substring(0, 200) || 'Applicant'`. -/
def safeFolderName (subFolderName : String) : String :=
  let t := String.mk
    ((subFolderName.data.filter
      (fun c => jsWordChar c || jsWhitespace c || c = '-')).take 200)
  if t.isEmpty then "Applicant" else t

/-- The images list as the pipeline reads it (absent modelled as `[]`). -/
def jsImages (images : Option (List FileObj)) : List FileObj :=
  images.getD []

/-- server.js:212 `processFilesInNode`: sanitise the folder name, create the
folder, save each image with truthy data (failures logged and skipped),
then the voice sample if present with truthy data.  Returns the pushed
file links and the trace of folder/file effects. -/
def processFilesInNode (env : Env) (images : Option (List FileObj))
    (voice : Option FileObj) (subFolderName : String) : List String × Trace :=
  let safeName := safeFolderName subFolderName
  let folderPath := UPLOADS_ROOT ++ "/" ++ safeName
  let imgPart :=
    if !(jsImages images).isEmpty then
      processImagesLoop env folderPath (jsImages images) 0
    else ([], [])
  let voicePart :=
    match voice with
    | some v =>
      if strTruthy v.data then
        match saveBase64File env v folderPath "VoiceSample.mp3" with
        | (.ok saved, w) => (["Voice Sample: " ++ saved.url], w)
        | (.error _, w) => ([], w)
      else ([], [])
    | none => ([], [])
  (imgPart.1 ++ voicePart.1,
   { foldersCreated := [safeName]
     filesWritten := imgPart.2 ++ voicePart.2
     sends := [] })

/-- The casting form body (server.js:371): two string identity fields,
three consent flags (any JS value; modelled by their truthiness), the
optional social handle, the image list and the voice attachment. -/
structure FormObject where
  email : Option String
  name : Option String
  agree_voluntary : Bool
  agree_usage : Bool
  agree_data : Bool
  social : Option String
  images : Option (List FileObj)
  voice : Option FileObj
deriving DecidableEq

/-- server.js:373 `requiredFields`, in the checked order. -/
def requiredFields : List String :=
  ["email", "name", "agree_voluntary", "agree_usage", "agree_data"]

/-- Truthiness of `formObject[field]` for each required field. -/
def fieldTruthy (f : FormObject) : String → Bool
  | "email" => strTruthy f.email
  | "name" => strTruthy f.name
  | "agree_voluntary" => f.agree_voluntary
  | "agree_usage" => f.agree_usage
  | "agree_data" => f.agree_data
  | _ => true

/-- The `for (const field of requiredFields)` loop of server.js:374:
the first falsy field, if any. -/
def firstMissingLoop (f : FormObject) : List String → Option String
  | [] => none
  | fld :: rest =>
    if fieldTruthy f fld then firstMissingLoop f rest else some fld

def firstMissingField (f : FormObject) : Option String :=
  firstMissingLoop f requiredFields

/-- `new Date().toISOString().replace(/[:]/g, '-')`. -/
def replaceColons (s : String) : String :=
  String.mk (s.data.map (fun c => if c = ':' then '-' else c))

/-- `.replace(/\..+$/, '')`: the leftmost `.` followed by at least one
character starts the (greedy, end-anchored) match, which is removed. -/
def stripDotTailAux : List Char → List Char
  | [] => []
  | ['.'] => ['.']
  | '.' :: _ :: _ => []
  | c :: rest => c :: stripDotTailAux rest

def stripDotTail (s : String) : String :=
  String.mk (stripDotTailAux s.data)

/-- The timestamp rendered into the folder name (server.js:389-392). -/
def castingTimeStamp (env : Env) : String :=
  stripDotTail (replaceColons env.nowIso)

/-- server.js:393-394: `formObject.social ? formObject.social :
'Applicant_' + formObject.name`, then append `_` and the timestamp. -/
def castingSubFolderName (env : Env) (f : FormObject) : String :=
  (if strTruthy f.social then f.social.getD ""
   else "Applicant_" ++ f.name.getD "") ++ "_" ++ castingTimeStamp env

/-- server.js:326 `sendSubmissionEmails`: the admin mail is attempted
first; the applicant confirmation is attempted only if the admin send
resolved (`await` rethrows otherwise).  Returns the overall outcome and
the recipients of the attempted sends. -/
def sendSubmissionEmails (env : Env) (f : FormObject) : Except String Unit × List String :=
  if env.adminSendOk then
    if env.userSendOk then
      (.ok (), [RECIPIENT_EMAIL, f.email.getD ""])
    else
      (.error "sendMail failed", [RECIPIENT_EMAIL, f.email.getD ""])
  else
    (.error "sendMail failed", [RECIPIENT_EMAIL])

structure SubmissionResult where
  success : Bool
  message : String
  filesProcessed : Nat
  fileLinks : List String
deriving DecidableEq

/-- server.js:407-409 result message (depends on `formObject.voice`
truthiness — the object, not its data). -/
def castingMessage (f : FormObject) (filesProcessed : Nat) : String :=
  if f.voice.isSome then
    "SUCCESS: Your application with MP3 voice sample has been submitted! Processed "
      ++ toString filesProcessed ++ " file(s). Confirmation sent to "
      ++ f.email.getD "" ++ "."
  else
    "SUCCESS: Your application has been submitted! Processed "
      ++ toString filesProcessed ++ " file(s). Confirmation sent to "
      ++ f.email.getD "" ++ "."

/-- server.js:381 guard: `formObject.images && formObject.images.length > 0`. -/
def imagesPresent (f : FormObject) : Bool :=
  !(jsImages f.images).isEmpty

/-- server.js:384 guard: `formObject.voice && formObject.voice.data`. -/
def voiceDataPresent (f : FormObject) : Bool :=
  match f.voice with
  | some v => strTruthy v.data
  | none => false

/-- server.js:371 `processCastingSubmission`: required-field gate, image
validation, audio validation (each rejection happens before any side
effect), folder derivation, best-effort file persistence, best-effort
email dispatch (errors caught and only logged), success result. -/
def processCastingSubmission (env : Env) (f : FormObject) :
    Except String SubmissionResult × Trace :=
  match firstMissingField f with
  | some field => (.error ("Required field missing: " ++ field), emptyTrace)
  | none =>
    match (if imagesPresent f then validateImageFiles (jsImages f.images) else .ok true) with
    | .error e => (.error e, emptyTrace)
    | .ok _ =>
      match (if voiceDataPresent f then validateAudioFile f.voice else .ok true) with
      | .error e => (.error e, emptyTrace)
      | .ok _ =>
        let subFolderName := castingSubFolderName env f
        let fl := processFilesInNode env f.images f.voice subFolderName
        let filesProcessed := fl.1.length
        let mails := sendSubmissionEmails env f
        (.ok { success := true
               message := castingMessage f filesProcessed
               filesProcessed := filesProcessed
               fileLinks := fl.1 },
         { fl.2 with sends := mails.2 })

/-- The sponsor inquiry body (server.js:419). -/
structure SponsorForm where
  company : Option String
  contactName : Option String
  contactEmail : Option String
  message : Option String
deriving DecidableEq

structure SimpleResult where
  success : Bool
  message : String
deriving DecidableEq

/-- server.js:419 `processSponsorInquiry`: hard gate on `contactEmail`,
then one admin notification whose failure is NOT caught — the `await`
rejection propagates to the route handler.  Returns the outcome and the
recipients of attempted sends. -/
def processSponsorInquiry (env : Env) (formData : SponsorForm) :
    Except String SimpleResult × List String :=
  if !strTruthy formData.contactEmail then
    (.error "Contact email is required.", [])
  else if env.sponsorSendOk then
    (.ok { success := true
           message := "SUCCESS: Your sponsorship inquiry has been sent. We'll contact you shortly." },
     [RECIPIENT_EMAIL])
  else
    (.error "sendMail failed", [RECIPIENT_EMAIL])

/-- The `/api/processSponsorInquiry` route (server.js:510-521): a resolved
result is returned as-is; a rejection becomes
`{success:false, message:'Failed to send inquiry: ...'}`. -/
def sponsorEndpoint (env : Env) (formData : SponsorForm) : SimpleResult :=
  match (processSponsorInquiry env formData).1 with
  | .ok r => r
  | .error e => { success := false, message := "Failed to send inquiry: " ++ e }

/-- One analytics event row as stored (server.js:455-464). -/
structure AnalyticsEvent where
  timestamp : String
  category : String
  action : String
  label : String
  userAgent : String
  page : String
  sessionId : String
  ipAddress : String
deriving DecidableEq

/-- server.js:272 `countByCategoryOptimized`: the `for...of` counting loop
with accumulator; an empty `label` (the default) disables label filtering
(`!label || row.label === label`). -/
def countLoop (count : Nat) (data : List AnalyticsEvent)
    (category action label : String) : Nat :=
  match data with
  | [] => count
  | row :: rest =>
    countLoop
      (if row.category == category && row.action == action
          && (label.isEmpty || row.label == label)
       then count + 1 else count)
      rest category action label

def countByCategoryOptimized (data : List AnalyticsEvent)
    (category action : String) (label : String := "") : Nat :=
  countLoop 0 data category action label

structure Stats where
  totalEvents : Nat
  uniqueSessions : Nat
  pageViews : Nat
  donationClicks : Nat
  formSubmissions : Nat
  lastUpdated : String
deriving DecidableEq

/-- `data.slice(-100)`: the most recent 100 stored events (the whole store
when fewer exist). -/
def lastRowsOf (data : List AnalyticsEvent) : List AnalyticsEvent :=
  data.drop (data.length - 100)

/-- server.js:286 `getQuickStatsLocal`: all-zero stats with a fresh
timestamp on an empty store, otherwise the rollup counters over
`data.slice(-100)` (`new Set(...).size` is the number of distinct session
ids in insertion order, i.e. `dedup.length`). -/
def getQuickStatsLocal (now : String) (data : List AnalyticsEvent) : Stats :=
  if data.isEmpty then
    { totalEvents := 0, uniqueSessions := 0, pageViews := 0
      donationClicks := 0, formSubmissions := 0, lastUpdated := now }
  else
    let lastRows := lastRowsOf data
    { totalEvents := lastRows.length
      uniqueSessions := (lastRows.map (·.sessionId)).dedup.length
      pageViews := countByCategoryOptimized lastRows "Navigation" "Page View"
      donationClicks := countByCategoryOptimized lastRows "Donation" "Button Click"
      formSubmissions := countByCategoryOptimized lastRows "Form" "Submission Success"
      lastUpdated := now }

/-- The cache key of server.js:101-103: `session_` + first 50 characters
of the user-agent (the literal `unknown` when the header is falsy) + `_` +
the current hour of day. -/
def sessionCacheKey (userAgent : Option String) (hour : Nat) : String :=
  "session_"
    ++ (if strTruthy userAgent then userAgent.getD "" else "unknown").take 50
    ++ "_" ++ toString hour

/-- server.js:100 `getSessionId` over an explicit cache state (the
in-memory `sessionCache` Map, as an association list).  `freshId` is the
`uuidv4()` the call would mint; `hour` is `new Date().getHours()`.  The
one-hour `setTimeout` eviction is an external mutation of the cache
between calls, so "before expiry" is modelled by reusing the returned
cache unchanged. -/
def getSessionId (cache : List (String × String)) (freshId : String)
    (userAgent : Option String) (hour : Nat) : String × List (String × String) :=
  let cacheKey := sessionCacheKey userAgent hour
  match cache.lookup cacheKey with
  | some sessionId => (sessionId, cache)
  | none => (freshId, (cacheKey, freshId) :: cache)

/-! ## Claim-side predicates and theorems -/

/-- The MIME-type condition of the C6 allow-list: a truthy declared type
whose lowercasing is one of the four allowed audio types. -/
def audioMimeAllowed (f : FileObj) : Prop :=
  strTruthy f.mimeType = true
    ∧ jsToLower (f.mimeType.getD "") ∈ ALLOWED_AUDIO_TYPES

/-- C6 filename condition: when a filename is present it must end in
`.mp3` case-insensitively. -/
def audioExtAcceptable (f : FileObj) : Prop :=
  strTruthy f.name = true → jsEndsWith (jsToLower (f.name.getD "")) ".mp3" = true

/-- C6 size condition: when a payload is declared, its decoded size may
not exceed the 10 MiB ceiling. -/
def audioSizeAcceptable (f : FileObj) : Prop :=
  strTruthy f.data = true →
    b64ByteLength (f.data.getD "") ≤ SERVER_CONFIG.maxAudioSize

/-- **C6.** `validateAudioFile` accepts an attachment exactly when the
declared MIME type is present and case-insensitively in the allow-list
{audio/mpeg, audio/mp3, audio/mp4, audio/x-mpeg}, any present filename
ends in `.mp3` case-insensitively, and any declared payload decodes to at
most 10 MiB; an absent file object is rejected, and the upper-case MIME
type `AUDIO/MPEG` passes the allow-list check. -/
theorem validateAudioFile_ok_iff (f : FileObj) :
    (validateAudioFile (some f) = .ok true ↔
      audioMimeAllowed f ∧ audioExtAcceptable f ∧ audioSizeAcceptable f)
    ∧ validateAudioFile none = .error "Invalid audio file: No MIME type detected"
    ∧ validateAudioFile
        (some { name := none, mimeType := some "AUDIO/MPEG", data := none })
      = .ok true := by
  refine ⟨?_, rfl, by decide⟩
  by_cases hm : strTruthy f.mimeType
  · by_cases hc : jsToLower (f.mimeType.getD "") ∈ ALLOWED_AUDIO_TYPES
    · by_cases hn : (strTruthy f.name && !jsEndsWith (jsToLower (f.name.getD "")) ".mp3") = true
      · simp only [Bool.and_eq_true, Bool.not_eq_true'] at hn
        apply iff_of_false
        · intro h
          simp [validateAudioFile, hm, hc, hn.1, hn.2, List.elem_eq_mem] at h
        · rintro ⟨-, hext, -⟩
          have := hext hn.1
          rw [hn.2] at this
          simp at this
      · by_cases hs : (strTruthy f.data
            && decide (b64ByteLength (f.data.getD "") > SERVER_CONFIG.maxAudioSize)) = true
        · simp only [Bool.and_eq_true, decide_eq_true_eq] at hs
          apply iff_of_false
          · intro h
            simp [validateAudioFile, hm, hc, hn, hs.1, hs.2, List.elem_eq_mem] at h
          · rintro ⟨-, -, hsize⟩
            have := hsize hs.1
            omega
        · simp only [Bool.and_eq_true, not_and, Bool.not_eq_true'] at hn hs
          have hext : strTruthy f.name = true →
              jsEndsWith (jsToLower (f.name.getD "")) ".mp3" = true := by
            intro h
            cases he : jsEndsWith (jsToLower (f.name.getD "")) ".mp3"
            · exact absurd he (hn h)
            · rfl
          have hsize : strTruthy f.data = true →
              b64ByteLength (f.data.getD "") ≤ SERVER_CONFIG.maxAudioSize := by
            intro h
            have h2 := hs h
            simp only [decide_eq_true_eq] at h2
            omega
          have hn' : (strTruthy f.name
              && !jsEndsWith (jsToLower (f.name.getD "")) ".mp3") = false := by
            cases hb : strTruthy f.name
            · rfl
            · simp [hext hb]
          have hs' : (strTruthy f.data
              && decide (b64ByteLength (f.data.getD "") > SERVER_CONFIG.maxAudioSize)) = false := by
            cases hb : strTruthy f.data
            · rfl
            · have hle := hsize hb
              simp only [Bool.true_and]
              exact decide_eq_false_iff_not.mpr (by omega)
          have hL : validateAudioFile (some f) = .ok true := by
            simp [validateAudioFile, hm, hc, hn', hs', List.elem_eq_mem]
          exact iff_of_true hL ⟨⟨hm, hc⟩, hext, hsize⟩
    · apply iff_of_false
      · intro h
        simp [validateAudioFile, hm, hc, List.elem_eq_mem] at h
      · rintro ⟨⟨-, hmem⟩, -, -⟩
        exact hc hmem
  · simp only [Bool.not_eq_true] at hm
    apply iff_of_false
    · intro h
      simp [validateAudioFile, hm] at h
    · rintro ⟨⟨h1, -⟩, -, -⟩
      rw [hm] at h1
      simp at h1

/-- **C8.** When no live cache entry exists for the key derived from the
first 50 characters of the user-agent (or `unknown`) and the hour of day,
`getSessionId` mints the fresh token, caches it under that key, and a
second call against the resulting cache state (same user-agent, same
hour, entry not yet evicted) returns the very same token. -/
theorem getSessionId_stable_within_hour
    (cache : List (String × String)) (fresh1 fresh2 : String)
    (userAgent : Option String) (hour : Nat)
    (hmiss : cache.lookup (sessionCacheKey userAgent hour) = none) :
    (getSessionId cache fresh1 userAgent hour).1 = fresh1
    ∧ (getSessionId cache fresh1 userAgent hour).2.lookup
        (sessionCacheKey userAgent hour) = some fresh1
    ∧ (getSessionId (getSessionId cache fresh1 userAgent hour).2
        fresh2 userAgent hour).1
      = (getSessionId cache fresh1 userAgent hour).1 := by
  simp [getSessionId, hmiss]

/-- Witness for C8 at a concrete user-agent, hour and cache state. -/
theorem getSessionId_stable_within_hour_witness :
    ([] : List (String × String)).lookup (sessionCacheKey (some "Mozilla/5.0") 14) = none
    ∧ ((getSessionId [] "token-one" (some "Mozilla/5.0") 14).1 = "token-one"
      ∧ (getSessionId [] "token-one" (some "Mozilla/5.0") 14).2.lookup
          (sessionCacheKey (some "Mozilla/5.0") 14) = some "token-one"
      ∧ (getSessionId (getSessionId [] "token-one" (some "Mozilla/5.0") 14).2
          "token-two" (some "Mozilla/5.0") 14).1
        = (getSessionId [] "token-one" (some "Mozilla/5.0") 14).1) :=
  ⟨rfl, getSessionId_stable_within_hour [] "token-one" "token-two"
    (some "Mozilla/5.0") 14 rfl⟩

/-- The counting loop equals `countP` of its row predicate, shifted by the
accumulator. -/
lemma countLoop_eq_countP (data : List AnalyticsEvent)
    (category action label : String) (acc : Nat) :
    countLoop acc data category action label
      = acc + data.countP (fun row =>
          row.category == category && row.action == action
            && (label.isEmpty || row.label == label)) := by
  induction data generalizing acc with
  | nil => simp [countLoop]
  | cons row rest ih =>
    rw [countLoop, ih, List.countP_cons]
    by_cases h : (row.category == category && row.action == action
        && (label.isEmpty || row.label == label)) = true
    · simp only [h, if_pos]
      omega
    · simp only [h, Bool.false_eq_true, if_false]
      omega

/-- A sample event for the C3 scenario. -/
def mkEvent (category action sessionId : String) : AnalyticsEvent :=
  { timestamp := "2099-01-01T00:00:00.000Z", category := category
    action := action, label := "", userAgent := "ua", page := "/"
    sessionId := sessionId, ipAddress := "ip" }

/-- The four-event store of the C3 scenario. -/
def demoStatsEvents : List AnalyticsEvent :=
  [mkEvent "Navigation" "Page View" "s1",
   mkEvent "Navigation" "Page View" "s2",
   mkEvent "Donation" "Button Click" "s1",
   mkEvent "Form" "Submission Success" "s2"]

/-- **C3.** On an empty store `getQuickStatsLocal` returns all-zero
counters carrying the current timestamp; on a nonempty store it computes,
over the window of the most recent 100 events (a suffix of the store of
length `min length 100`): the window length, the number of distinct
session ids, and the exact category+action match counts for page views,
donation clicks and form submissions, with no label filtering; the C3
four-event scenario yields (4, 2, 2, 1, 1). -/
theorem getQuickStatsLocal_rollup (now : String) (data : List AnalyticsEvent)
    (h : data ≠ []) :
    getQuickStatsLocal now []
      = { totalEvents := 0, uniqueSessions := 0, pageViews := 0
          donationClicks := 0, formSubmissions := 0, lastUpdated := now }
    ∧ lastRowsOf data <:+ data
    ∧ (lastRowsOf data).length = min data.length 100
    ∧ (getQuickStatsLocal now data).totalEvents = (lastRowsOf data).length
    ∧ (getQuickStatsLocal now data).uniqueSessions
        = ((lastRowsOf data).map (·.sessionId)).toFinset.card
    ∧ (getQuickStatsLocal now data).pageViews
        = (lastRowsOf data).countP
            (fun e => e.category == "Navigation" && e.action == "Page View")
    ∧ (getQuickStatsLocal now data).donationClicks
        = (lastRowsOf data).countP
            (fun e => e.category == "Donation" && e.action == "Button Click")
    ∧ (getQuickStatsLocal now data).formSubmissions
        = (lastRowsOf data).countP
            (fun e => e.category == "Form" && e.action == "Submission Success")
    ∧ (getQuickStatsLocal now data).lastUpdated = now
    ∧ getQuickStatsLocal "2099-01-01T00:00:01.000Z" demoStatsEvents
        = { totalEvents := 4, uniqueSessions := 2, pageViews := 2
            donationClicks := 1, formSubmissions := 1
            lastUpdated := "2099-01-01T00:00:01.000Z" } := by
  have hne : data.isEmpty = false := by
    cases data
    · exact absurd rfl h
    · rfl
  have hcount : ∀ category action : String,
      countByCategoryOptimized (lastRowsOf data) category action
        = (lastRowsOf data).countP
            (fun e => e.category == category && e.action == action) := by
    intro category action
    rw [countByCategoryOptimized, countLoop_eq_countP, Nat.zero_add]
    have : (fun (row : AnalyticsEvent) =>
        row.category == category && row.action == action
          && (("" : String).isEmpty || row.label == "")) = (fun row =>
        row.category == category && row.action == action) := by
      funext row
      simp [String.isEmpty]
    rw [this]
  refine ⟨rfl, List.drop_suffix _ _, ?_, ?_, ?_, ?_, ?_, ?_, ?_, by decide⟩
  · rw [lastRowsOf, List.length_drop]
    omega
  · simp [getQuickStatsLocal, hne]
  · simp [getQuickStatsLocal, hne, List.card_toFinset]
  · simp only [getQuickStatsLocal, hne, Bool.false_eq_true, if_false]
    exact hcount "Navigation" "Page View"
  · simp only [getQuickStatsLocal, hne, Bool.false_eq_true, if_false]
    exact hcount "Donation" "Button Click"
  · simp only [getQuickStatsLocal, hne, Bool.false_eq_true, if_false]
    exact hcount "Form" "Submission Success"
  · simp [getQuickStatsLocal, hne]

/-- Witness for C3 at the four-event store of the scenario. -/
theorem getQuickStatsLocal_rollup_witness :
    demoStatsEvents ≠ []
    ∧ (getQuickStatsLocal "T" demoStatsEvents).totalEvents
        = (lastRowsOf demoStatsEvents).length :=
  ⟨by decide, (getQuickStatsLocal_rollup "T" demoStatsEvents (by decide)).2.2.2.1⟩

/-- A fully cooperative environment at a fixed clock instant. -/
def envAllOk : Env :=
  { nowIso := "2025-10-11T20:00:00.000Z"
    writeOk := fun _ => true
    adminSendOk := true
    userSendOk := true
    sponsorSendOk := true }

/-- A valid casting form whose social handle consists only of characters
outside `[\w\s-]`. -/
def handleOnlyForm : FormObject :=
  { email := some "cast@example.com", name := some "Jane"
    agree_voluntary := true, agree_usage := true, agree_data := true
    social := some "***///", images := none, voice := none }

/-- **C4 counterexample.** For the handle `"***///"` the derived folder
key is `"_" ++ timestamp`, not `"Applicant" ++ ...`: sanitisation acts on
the whole `handle_timestamp` string, whose timestamp part survives, so
the empty-string fallback `"Applicant"` is never reached and the
non-timestamp portion of the key is empty rather than `"Applicant"`. -/
theorem safeFolderName_fallback_counterexample :
    (processCastingSubmission envAllOk handleOnlyForm).2.foldersCreated
      = ["_2025-10-11T20-00-00"]
    ∧ safeFolderName (castingSubFolderName envAllOk handleOnlyForm)
        = "_2025-10-11T20-00-00"
    ∧ jsStartsWith (safeFolderName (castingSubFolderName envAllOk handleOnlyForm))
        "Applicant" = false := by
  refine ⟨by decide, by decide, by decide⟩

/-- **C4 amended.** Sanitisation strips every character outside
`[\w\s-]` from the whole `handle_timestamp` string and truncates to 200
characters, substituting `"Applicant"` only when the entire sanitised
string is empty.  Hence a handle of only disallowed characters yields the
folder key `"_" ++ timestamp` — an empty non-timestamp portion, not the
fallback — while sanitising such a handle alone would yield the fallback
`"Applicant"`. -/
theorem safeFolderName_strips_and_falls_back (social ts : String)
    (hsocial : ∀ c ∈ social.data, (jsWordChar c || jsWhitespace c || c = '-') = false)
    (hts : ∀ c ∈ ts.data, (jsWordChar c || jsWhitespace c || c = '-') = true)
    (hlen : ts.length + 1 ≤ 200) :
    safeFolderName (social ++ "_" ++ ts) = "_" ++ ts
    ∧ safeFolderName social = "Applicant" := by
  have hfilter : (social.data.filter
      (fun c => jsWordChar c || jsWhitespace c || c = '-')) = [] :=
    List.filter_eq_nil_iff.mpr (by
      intro a ha
      simp [hsocial a ha])
  constructor
  · rw [safeFolderName]
    have hdata : (social ++ "_" ++ ts).data = social.data ++ ('_' :: ts.data) := by
      rw [String.data_append, String.data_append, List.append_assoc]
      rfl
    rw [hdata, List.filter_append, hfilter, List.nil_append]
    rw [List.filter_cons_of_pos (by decide)]
    rw [List.filter_eq_self.mpr (by intro a ha; simp [hts a ha])]
    rw [List.take_of_length_le (by
      have : ts.length = ts.data.length := rfl
      simp only [List.length_cons]
      omega)]
    have hmk : String.mk ('_' :: ts.data) = "_" ++ ts := by
      apply String.ext
      rw [String.data_append]
      rfl
    rw [hmk]
    rw [if_neg (by
      rw [← hmk]
      simp [String.isEmpty_iff, String.ext_iff])]
  · rw [safeFolderName, hfilter]
    rfl

/-- Witness for C4-amended at the handle `"***///"` and the timestamp the
counterexample uses. -/
theorem safeFolderName_strips_and_falls_back_witness :
    (∀ c ∈ ("***///" : String).data,
      (jsWordChar c || jsWhitespace c || c = '-') = false)
    ∧ (∀ c ∈ ("2025-10-11T20-00-00" : String).data,
      (jsWordChar c || jsWhitespace c || c = '-') = true)
    ∧ ("2025-10-11T20-00-00" : String).length + 1 ≤ 200
    ∧ (safeFolderName ("***///" ++ "_" ++ "2025-10-11T20-00-00")
        = "_" ++ "2025-10-11T20-00-00"
      ∧ safeFolderName "***///" = "Applicant") :=
  ⟨by decide, by decide, by decide,
    safeFolderName_strips_and_falls_back "***///" "2025-10-11T20-00-00"
      (by decide) (by decide) (by decide)⟩

/-- A field reported by the required-field loop is falsy, and every field
checked before it in the loop's list was truthy. -/
lemma firstMissingLoop_spec (f : FormObject) (l : List String) (fld : String)
    (h : firstMissingLoop f l = some fld) :
    fieldTruthy f fld = false
      ∧ ∃ pre post, l = pre ++ fld :: post
          ∧ ∀ g ∈ pre, fieldTruthy f g = true := by
  induction l with
  | nil => exact absurd h (by rw [firstMissingLoop]; intro hc; cases hc)
  | cons a rest ih =>
    rw [firstMissingLoop] at h
    by_cases ha : fieldTruthy f a = true
    · rw [if_pos ha] at h
      obtain ⟨h1, pre, post, hl, hpre⟩ := ih h
      refine ⟨h1, a :: pre, post, by rw [hl, List.cons_append], ?_⟩
      intro g hg
      rcases List.mem_cons.mp hg with hg | hg
      · rw [hg]; exact ha
      · exact hpre g hg
    · rw [if_neg ha] at h
      cases h
      exact ⟨Bool.not_eq_true _ ▸ Bool.eq_false_iff.mpr (fun hc => ha hc), [], rest,
        rfl, by intro g hg; cases hg⟩

/-- **C1.** When any required field of {email, name, agree_voluntary,
agree_usage, agree_data} is absent or falsy, `processCastingSubmission`
rejects with an error naming the first such field in that fixed order, and
the trace is empty — no folder created, no file persisted, no notification
send attempted. -/
theorem casting_missing_field_rejects (env : Env) (f : FormObject) (fld : String)
    (h : firstMissingField f = some fld) :
    processCastingSubmission env f
      = (.error ("Required field missing: " ++ fld),
         { foldersCreated := [], filesWritten := [], sends := [] })
    ∧ fieldTruthy f fld = false
    ∧ ∃ pre post, requiredFields = pre ++ fld :: post
        ∧ ∀ g ∈ pre, fieldTruthy f g = true := by
  obtain ⟨h1, h2⟩ := firstMissingLoop_spec f requiredFields fld h
  refine ⟨?_, h1, h2⟩
  rw [processCastingSubmission, h]
  rfl

/-- Witness for C1: a form whose email is the empty string (falsy). -/
theorem casting_missing_field_rejects_witness :
    firstMissingField
      { email := some "", name := some "Jane", agree_voluntary := true
        agree_usage := true, agree_data := true, social := none
        images := none, voice := none } = some "email"
    ∧ processCastingSubmission envAllOk
        { email := some "", name := some "Jane", agree_voluntary := true
          agree_usage := true, agree_data := true, social := none
          images := none, voice := none }
      = (.error "Required field missing: email",
         { foldersCreated := [], filesWritten := [], sends := [] }) :=
  ⟨by decide,
    (casting_missing_field_rejects envAllOk
      { email := some "", name := some "Jane", agree_voluntary := true
        agree_usage := true, agree_data := true, social := none
        images := none, voice := none } "email" (by decide)).1⟩

/-- A concrete sponsor inquiry with a present contact email. -/
def sponsorFormOk : SponsorForm :=
  { company := some "Acme Media", contactName := some "Bo Lee"
    contactEmail := some "bo@acme.example", message := some "Interested." }

/-- The environment in which every `sendMail` call rejects. -/
def envSendFail : Env :=
  { nowIso := "2025-10-11T20:00:00.000Z"
    writeOk := fun _ => true
    adminSendOk := false
    userSendOk := false
    sponsorSendOk := false }

/-- **C5 counterexample.** A sponsor inquiry that passes its only
validation gate (contact email present) still yields `success = false`
when the notification send rejects: the sponsor path has no try/catch
around `sendMail`, so the claim that notification errors never flip
`success` for both endpoints fails on the sponsor endpoint. -/
theorem sponsor_send_failure_flips_success :
    strTruthy sponsorFormOk.contactEmail = true
    ∧ sponsorEndpoint envSendFail sponsorFormOk
        = { success := false
            message := "Failed to send inquiry: sendMail failed" } := by
  exact ⟨by decide, by decide⟩

/-- **C5 amended.** Validation failures are the only failures that flip
`success` for the casting endpoint: once the three validation gates have
passed, `processCastingSubmission` returns `success = true` under every
environment, including those where every notification send rejects.  The
sponsor path does not share this property: with the contact-email gate
passed, a rejected send propagates and the endpoint returns
`success = false`, while a resolved send returns `success = true`. -/
theorem notification_failures_nonfatal_casting_only
    (env : Env) (f : FormObject) (sf : SponsorForm)
    (hreq : firstMissingField f = none)
    (himg : (if imagesPresent f then validateImageFiles (jsImages f.images)
      else .ok true) = .ok true)
    (hvoice : (if voiceDataPresent f then validateAudioFile f.voice
      else .ok true) = .ok true)
    (hmail : strTruthy sf.contactEmail = true) :
    (∃ r t, processCastingSubmission env f = (.ok r, t) ∧ r.success = true)
    ∧ (env.sponsorSendOk = false →
        sponsorEndpoint env sf
          = { success := false
              message := "Failed to send inquiry: sendMail failed" })
    ∧ (env.sponsorSendOk = true →
        (processSponsorInquiry env sf).1
          = .ok { success := true
                  message := "SUCCESS: Your sponsorship inquiry has been sent. We'll contact you shortly." }) := by
  refine ⟨?_, ?_, ?_⟩
  · rw [processCastingSubmission, hreq]
    rw [himg, hvoice]
    exact ⟨_, _, rfl, rfl⟩
  · intro hko
    rw [sponsorEndpoint, processSponsorInquiry]
    rw [if_neg (by simp [hmail]), if_neg (by simp [hko])]
    rfl
  · intro hok
    rw [processSponsorInquiry]
    rw [if_neg (by simp [hmail]), if_pos hok]

/-- Witness for C5-amended: a valid casting form with a voice sample and
images handled under the all-rejecting mail environment still succeeds;
the sponsor outcome flips with the send flag. -/
theorem notification_failures_nonfatal_casting_only_witness :
    firstMissingField handleOnlyForm = none
    ∧ (if imagesPresent handleOnlyForm
        then validateImageFiles (jsImages handleOnlyForm.images)
        else .ok true) = .ok true
    ∧ (if voiceDataPresent handleOnlyForm
        then validateAudioFile handleOnlyForm.voice
        else .ok true) = .ok true
    ∧ strTruthy sponsorFormOk.contactEmail = true
    ∧ ((∃ r t, processCastingSubmission envSendFail handleOnlyForm = (.ok r, t)
          ∧ r.success = true)
      ∧ (envSendFail.sponsorSendOk = false →
          sponsorEndpoint envSendFail sponsorFormOk
            = { success := false
                message := "Failed to send inquiry: sendMail failed" })
      ∧ (envSendFail.sponsorSendOk = true →
          (processSponsorInquiry envSendFail sponsorFormOk).1
            = .ok { success := true
                    message := "SUCCESS: Your sponsorship inquiry has been sent. We'll contact you shortly." })) :=
  ⟨by decide, by decide, by decide, by decide,
    notification_failures_nonfatal_casting_only envSendFail handleOnlyForm
      sponsorFormOk (by decide) (by decide) (by decide) (by decide)⟩

/-- **C10.** An image attachment with no `data` field: the size ceiling is
never consulted (validation of a one-image set succeeds exactly when the
MIME check passes), and the persistence loop silently skips it, so the
submission succeeds with no file reference, `filesProcessed = 0` and no
file written. -/
theorem dataless_image_skipped (env : Env) (f : FormObject) (img : FileObj)
    (hreq : firstMissingField f = none)
    (himg : f.images = some [img])
    (hvoice : f.voice = none)
    (hnodata : img.data = none) :
    (validateImageFiles [img] = .ok true ↔ imgMimeOk img = true)
    ∧ (imgMimeOk img = true →
        processCastingSubmission env f
          = (.ok { success := true, message := castingMessage f 0
                   filesProcessed := 0, fileLinks := [] },
             { foldersCreated := [safeFolderName (castingSubFolderName env f)]
               filesWritten := []
               sends := (sendSubmissionEmails env f).2 })) := by
  have hsize : imgSizeBad img = false := by
    rw [imgSizeBad, hnodata]
    rfl
  have h0 : validateImageFiles [img] = validateImagesLoop [img] 0 := rfl
  have hiff : validateImageFiles [img] = .ok true ↔ imgMimeOk img = true := by
    rw [h0, validateImagesLoop]
    constructor
    · intro hok
      cases hm : imgMimeOk img
      · rw [if_pos (by simp [hm])] at hok
        cases hok
      · rfl
    · intro hm
      rw [if_neg (by simp [hm]), if_neg (by simp [hsize]), validateImagesLoop]
  refine ⟨hiff, ?_⟩
  intro hm
  have himgs : (if imagesPresent f then validateImageFiles (jsImages f.images)
      else .ok true) = .ok true := by
    have : jsImages f.images = [img] := by rw [himg]; rfl
    rw [if_pos (by rw [imagesPresent, this]; rfl), this]
    exact hiff.mpr hm
  have hvo : (if voiceDataPresent f then validateAudioFile f.voice
      else .ok true) = .ok true := by
    rw [if_neg (by rw [voiceDataPresent, hvoice]; simp)]
  rw [processCastingSubmission, hreq, himgs, hvo]
  have hfl : processFilesInNode env f.images f.voice (castingSubFolderName env f)
      = ([], { foldersCreated := [safeFolderName (castingSubFolderName env f)]
               filesWritten := [], sends := [] }) := by
    rw [processFilesInNode.eq_def, himg, hvoice]
    have hloop : processImagesLoop env
        (UPLOADS_ROOT ++ "/" ++ safeFolderName (castingSubFolderName env f))
        [img] 0 = ([], []) := by
      rw [processImagesLoop]
      rw [if_neg (by rw [hnodata]; simp [strTruthy])]
      rfl
    simp only [jsImages, Option.getD_some, List.isEmpty_cons, Bool.not_false,
      if_true, hloop]
    rfl
  simp only [hfl]
  rfl

/-- Witness for C10: a `image/png` attachment with absent data inside an
otherwise valid submission. -/
theorem dataless_image_skipped_witness :
    firstMissingField
      { email := some "a@b.c", name := some "Jane", agree_voluntary := true
        agree_usage := true, agree_data := true, social := none
        images := some [{ name := some "p.png", mimeType := some "image/png", data := none }]
        voice := none } = none
    ∧ ((validateImageFiles [{ name := some "p.png", mimeType := some "image/png", data := none }]
          = .ok true
        ↔ imgMimeOk { name := some "p.png", mimeType := some "image/png", data := none } = true)
      ∧ (imgMimeOk { name := some "p.png", mimeType := some "image/png", data := none } = true →
          processCastingSubmission envAllOk
            { email := some "a@b.c", name := some "Jane", agree_voluntary := true
              agree_usage := true, agree_data := true, social := none
              images := some [{ name := some "p.png", mimeType := some "image/png", data := none }]
              voice := none }
            = (.ok { success := true
                     message := castingMessage
                       { email := some "a@b.c", name := some "Jane", agree_voluntary := true
                         agree_usage := true, agree_data := true, social := none
                         images := some [{ name := some "p.png", mimeType := some "image/png", data := none }]
                         voice := none } 0
                     filesProcessed := 0, fileLinks := [] },
               { foldersCreated := [safeFolderName (castingSubFolderName envAllOk
                   { email := some "a@b.c", name := some "Jane", agree_voluntary := true
                     agree_usage := true, agree_data := true, social := none
                     images := some [{ name := some "p.png", mimeType := some "image/png", data := none }]
                     voice := none })]
                 filesWritten := []
                 sends := (sendSubmissionEmails envAllOk
                   { email := some "a@b.c", name := some "Jane", agree_voluntary := true
                     agree_usage := true, agree_data := true, social := none
                     images := some [{ name := some "p.png", mimeType := some "image/png", data := none }]
                     voice := none }).2 }))) :=
  ⟨by decide,
    dataless_image_skipped envAllOk
      { email := some "a@b.c", name := some "Jane", agree_voluntary := true
        agree_usage := true, agree_data := true, social := none
        images := some [{ name := some "p.png", mimeType := some "image/png", data := none }]
        voice := none }
      { name := some "p.png", mimeType := some "image/png", data := none }
      (by decide) rfl rfl rfl⟩

/-- **C9.** An attachment whose base64 payload, after stripping the
data-URL prefix and whitespace, is shorter than 100 characters always
fails the persistence step with "File data appears to be empty or too
small" — even when it passed validation — and under the soft-failure
policy it is excluded from the result: the submission succeeds with no
file reference and nothing written, so such a small file is never
persisted. -/
theorem small_payload_never_persisted
    (env : Env) (f : FormObject) (img : FileObj) (d : String)
    (hreq : firstMissingField f = none)
    (himg : f.images = some [img])
    (hvoice : f.voice = none)
    (hdata : img.data = some d)
    (hdne : d.isEmpty = false)
    (hsmall : (stripB64 d).length < 100)
    (hval : validateImageFiles [img] = .ok true) :
    (∀ folder filename, saveBase64File env img folder filename
        = (.error "File data appears to be empty or too small", []))
    ∧ processCastingSubmission env f
        = (.ok { success := true, message := castingMessage f 0
                 filesProcessed := 0, fileLinks := [] },
           { foldersCreated := [safeFolderName (castingSubFolderName env f)]
             filesWritten := []
             sends := (sendSubmissionEmails env f).2 }) := by
  have hst : strTruthy img.data = true := by
    rw [hdata, strTruthy]
    simp [hdne]
  have hsave : ∀ folder filename, saveBase64File env img folder filename
      = (.error "File data appears to be empty or too small", []) := by
    intro folder filename
    rw [saveBase64File.eq_def, hdata]
    dsimp only
    rw [if_neg (by simp [hdne])]
    rw [if_pos (by simp [hsmall])]
  refine ⟨hsave, ?_⟩
  have himgs : (if imagesPresent f then validateImageFiles (jsImages f.images)
      else .ok true) = .ok true := by
    have hj : jsImages f.images = [img] := by rw [himg]; rfl
    rw [if_pos (by rw [imagesPresent, hj]; rfl), hj]
    exact hval
  have hvo : (if voiceDataPresent f then validateAudioFile f.voice
      else .ok true) = .ok true := by
    rw [if_neg (by rw [voiceDataPresent, hvoice]; simp)]
  rw [processCastingSubmission, hreq, himgs, hvo]
  have hfl : processFilesInNode env f.images f.voice (castingSubFolderName env f)
      = ([], { foldersCreated := [safeFolderName (castingSubFolderName env f)]
               filesWritten := [], sends := [] }) := by
    rw [processFilesInNode.eq_def, himg, hvoice]
    have hloop : processImagesLoop env
        (UPLOADS_ROOT ++ "/" ++ safeFolderName (castingSubFolderName env f))
        [img] 0 = ([], []) := by
      simp only [processImagesLoop, hst, if_true, hsave]
      rfl
    simp only [jsImages, Option.getD_some, List.isEmpty_cons, Bool.not_false,
      if_true, hloop]
    rfl
  simp only [hfl]
  rfl

/-- Witness for C9: a 4-character base64 payload (`"QUJD"`) with a valid
image MIME type passes validation yet is never persisted. -/
theorem small_payload_never_persisted_witness :
    firstMissingField
      { email := some "a@b.c", name := some "Jane", agree_voluntary := true
        agree_usage := true, agree_data := true, social := none
        images := some [{ name := some "p.png", mimeType := some "image/png", data := some "QUJD" }]
        voice := none } = none
    ∧ ("QUJD" : String).isEmpty = false
    ∧ (stripB64 "QUJD").length < 100
    ∧ validateImageFiles
        [{ name := some "p.png", mimeType := some "image/png", data := some "QUJD" }]
      = .ok true
    ∧ ((∀ folder filename, saveBase64File envAllOk
          { name := some "p.png", mimeType := some "image/png", data := some "QUJD" }
          folder filename
          = (.error "File data appears to be empty or too small", []))
      ∧ processCastingSubmission envAllOk
          { email := some "a@b.c", name := some "Jane", agree_voluntary := true
            agree_usage := true, agree_data := true, social := none
            images := some [{ name := some "p.png", mimeType := some "image/png", data := some "QUJD" }]
            voice := none }
          = (.ok { success := true
                   message := castingMessage
                     { email := some "a@b.c", name := some "Jane", agree_voluntary := true
                       agree_usage := true, agree_data := true, social := none
                       images := some [{ name := some "p.png", mimeType := some "image/png", data := some "QUJD" }]
                       voice := none } 0
                   filesProcessed := 0, fileLinks := [] },
             { foldersCreated := [safeFolderName (castingSubFolderName envAllOk
                 { email := some "a@b.c", name := some "Jane", agree_voluntary := true
                   agree_usage := true, agree_data := true, social := none
                   images := some [{ name := some "p.png", mimeType := some "image/png", data := some "QUJD" }]
                   voice := none })]
               filesWritten := []
               sends := (sendSubmissionEmails envAllOk
                 { email := some "a@b.c", name := some "Jane", agree_voluntary := true
                   agree_usage := true, agree_data := true, social := none
                   images := some [{ name := some "p.png", mimeType := some "image/png", data := some "QUJD" }]
                   voice := none }).2 })) :=
  ⟨by decide, by decide, by decide, by decide,
    small_payload_never_persisted envAllOk
      { email := some "a@b.c", name := some "Jane", agree_voluntary := true
        agree_usage := true, agree_data := true, social := none
        images := some [{ name := some "p.png", mimeType := some "image/png", data := some "QUJD" }]
        voice := none }
      { name := some "p.png", mimeType := some "image/png", data := some "QUJD" }
      "QUJD" (by decide) rfl rfl rfl (by decide) (by decide) (by decide)⟩

/-- When every attachment passes the per-image checks, the validation
loop accepts. -/
lemma validateImagesLoop_ok (imgs : List FileObj) (k : Nat)
    (h : ∀ img ∈ imgs, imageOk img = true) :
    validateImagesLoop imgs k = .ok true := by
  induction imgs generalizing k with
  | nil => rfl
  | cons img rest ih =>
    have h1 : imageOk img = true := h img (List.mem_cons_self img rest)
    rw [imageOk, Bool.and_eq_true, Bool.not_eq_true'] at h1
    rw [validateImagesLoop, if_neg (by simp [h1.1]), if_neg (by simp [h1.2])]
    exact ih (k + 1) (fun i hi => h i (List.mem_cons_of_mem img hi))

/-- When attachment `i` is the first offender, the validation loop throws
its message, naming the 1-based position `k + i + 1`. -/
lemma validateImagesLoop_err (imgs : List FileObj) (k i : Nat)
    (hi : i < imgs.length)
    (hbad : imageOk (imgs.getD i default) = false)
    (hmin : ∀ j, j < i → imageOk (imgs.getD j default) = true) :
    validateImagesLoop imgs k
      = .error (imageErrorMsg (k + i + 1) (imgs.getD i default)) := by
  induction imgs generalizing k i with
  | nil => simp at hi
  | cons img rest ih =>
    cases i with
    | zero =>
      rw [List.getD_cons_zero] at hbad ⊢
      rw [validateImagesLoop]
      cases hm : imgMimeOk img
      · rw [if_pos (by simp [hm])]
        simp [imageErrorMsg, hm]
      · have hs : imgSizeBad img = true := by
          rw [imageOk, hm] at hbad
          simpa using hbad
        rw [if_neg (by simp [hm]), if_pos hs]
        simp [imageErrorMsg, hm]
    | succ i2 =>
      have h0 : imageOk img = true := by
        have := hmin 0 (Nat.succ_pos i2)
        rwa [List.getD_cons_zero] at this
      rw [imageOk, Bool.and_eq_true, Bool.not_eq_true'] at h0
      rw [validateImagesLoop, if_neg (by simp [h0.1]), if_neg (by simp [h0.2])]
      rw [List.getD_cons_succ] at hbad ⊢
      have hrec := ih (k + 1) i2 (by simpa using hi) hbad (fun j hj => by
        have := hmin (j + 1) (Nat.succ_lt_succ hj)
        rwa [List.getD_cons_succ] at this)
      have harith : k + (i2 + 1) + 1 = k + 1 + i2 + 1 := by omega
      rw [harith]
      exact hrec

/-- **C7.** A submission whose image set has more than 6 attachments, or
any attachment with a missing or non-`image/` MIME type, or any declared
payload over 5 MiB, is rejected as a whole before anything is persisted
(empty trace: no folder, no file, no send); when the count is within
bounds, the rejection message is the one naming the 1-based index of the
first offending attachment. -/
theorem image_validation_all_or_nothing (env : Env) (f : FormObject)
    (imgs : List FileObj)
    (hreq : firstMissingField f = none)
    (himg : f.images = some imgs)
    (hbad : SERVER_CONFIG.maxImages < imgs.length
      ∨ ∃ i, i < imgs.length ∧ imageOk (imgs.getD i default) = false) :
    ∃ e, validateImageFiles imgs = .error e
      ∧ processCastingSubmission env f
          = (.error e, { foldersCreated := [], filesWritten := [], sends := [] })
      ∧ (SERVER_CONFIG.maxImages < imgs.length →
          e = "Too many images. Maximum "
            ++ toString SERVER_CONFIG.maxImages ++ " allowed.")
      ∧ (imgs.length ≤ SERVER_CONFIG.maxImages →
          ∃ i, i < imgs.length
            ∧ imageOk (imgs.getD i default) = false
            ∧ (∀ j, j < i → imageOk (imgs.getD j default) = true)
            ∧ e = imageErrorMsg (i + 1) (imgs.getD i default)) := by
  have hne : imgs ≠ [] := by
    rcases hbad with h | ⟨i, hi, -⟩
    · intro hc
      rw [hc] at h
      simp [SERVER_CONFIG] at h
    · intro hc
      rw [hc] at hi
      simp at hi
  have hnee : imgs.isEmpty = false := by
    cases imgs
    · exact absurd rfl hne
    · rfl
  have hpipe : ∀ e, validateImageFiles imgs = .error e →
      processCastingSubmission env f
        = (.error e, { foldersCreated := [], filesWritten := [], sends := [] }) := by
    intro e he
    have hj : jsImages f.images = imgs := by rw [himg]; rfl
    have hscrut : (if imagesPresent f then validateImageFiles (jsImages f.images)
        else .ok true) = .error e := by
      rw [if_pos (by rw [imagesPresent, hj, hnee]; rfl), hj]
      exact he
    rw [processCastingSubmission, hreq, hscrut]
    rfl
  by_cases hlen : SERVER_CONFIG.maxImages < imgs.length
  · have hv : validateImageFiles imgs
        = .error ("Too many images. Maximum "
            ++ toString SERVER_CONFIG.maxImages ++ " allowed.") := by
      rw [validateImageFiles, if_neg (by rw [hnee]; simp), if_pos hlen]
    refine ⟨_, hv, hpipe _ hv, fun _ => rfl, fun hle => absurd hlen (by omega)⟩
  · have hex : ∃ i, i < imgs.length ∧ imageOk (imgs.getD i default) = false := by
      rcases hbad with h | h
      · exact absurd h hlen
      · exact h
    obtain ⟨hi, hbadi⟩ := Nat.find_spec hex
    have hmin : ∀ j, j < Nat.find hex → imageOk (imgs.getD j default) = true := by
      intro j hj
      have hnot := Nat.find_min hex hj
      have hjlen : j < imgs.length := Nat.lt_trans hj hi
      by_contra hc
      exact hnot ⟨hjlen, by simpa using hc⟩
    have hloop := validateImagesLoop_err imgs 0 (Nat.find hex) hi hbadi hmin
    rw [Nat.zero_add] at hloop
    have hv : validateImageFiles imgs
        = .error (imageErrorMsg (Nat.find hex + 1) (imgs.getD (Nat.find hex) default)) := by
      rw [validateImageFiles, if_neg (by rw [hnee]; simp), if_neg hlen]
      exact hloop
    exact ⟨_, hv, hpipe _ hv, fun hc => absurd hc hlen,
      fun _ => ⟨Nat.find hex, hi, hbadi, hmin, rfl⟩⟩

/-- Witness for C7: two images whose second has a non-image MIME type:
the whole submission is rejected with "File 2 is not a valid image." and
an empty trace. -/
theorem image_validation_all_or_nothing_witness :
    firstMissingField
      { email := some "a@b.c", name := some "Jane", agree_voluntary := true
        agree_usage := true, agree_data := true, social := none
        images := some
          [{ name := some "p.png", mimeType := some "image/png", data := none },
           { name := some "d.pdf", mimeType := some "application/pdf", data := none }]
        voice := none } = none
    ∧ (SERVER_CONFIG.maxImages <
        ([{ name := some "p.png", mimeType := some "image/png", data := none },
          { name := some "d.pdf", mimeType := some "application/pdf", data := none }]
          : List FileObj).length
      ∨ ∃ i, i < ([{ name := some "p.png", mimeType := some "image/png", data := none },
          { name := some "d.pdf", mimeType := some "application/pdf", data := none }]
          : List FileObj).length
        ∧ imageOk (([{ name := some "p.png", mimeType := some "image/png", data := none },
            { name := some "d.pdf", mimeType := some "application/pdf", data := none }]
            : List FileObj).getD i default) = false)
    ∧ ∃ e, validateImageFiles
          [{ name := some "p.png", mimeType := some "image/png", data := none },
           { name := some "d.pdf", mimeType := some "application/pdf", data := none }]
        = .error e
      ∧ processCastingSubmission envAllOk
          { email := some "a@b.c", name := some "Jane", agree_voluntary := true
            agree_usage := true, agree_data := true, social := none
            images := some
              [{ name := some "p.png", mimeType := some "image/png", data := none },
               { name := some "d.pdf", mimeType := some "application/pdf", data := none }]
            voice := none }
          = (.error e, { foldersCreated := [], filesWritten := [], sends := [] })
      ∧ (SERVER_CONFIG.maxImages <
          ([{ name := some "p.png", mimeType := some "image/png", data := none },
            { name := some "d.pdf", mimeType := some "application/pdf", data := none }]
            : List FileObj).length →
          e = "Too many images. Maximum "
            ++ toString SERVER_CONFIG.maxImages ++ " allowed.")
      ∧ (([{ name := some "p.png", mimeType := some "image/png", data := none },
           { name := some "d.pdf", mimeType := some "application/pdf", data := none }]
           : List FileObj).length ≤ SERVER_CONFIG.maxImages →
          ∃ i, i < ([{ name := some "p.png", mimeType := some "image/png", data := none },
              { name := some "d.pdf", mimeType := some "application/pdf", data := none }]
              : List FileObj).length
            ∧ imageOk (([{ name := some "p.png", mimeType := some "image/png", data := none },
                { name := some "d.pdf", mimeType := some "application/pdf", data := none }]
                : List FileObj).getD i default) = false
            ∧ (∀ j, j < i → imageOk (([{ name := some "p.png", mimeType := some "image/png", data := none },
                { name := some "d.pdf", mimeType := some "application/pdf", data := none }]
                : List FileObj).getD j default) = true)
            ∧ e = imageErrorMsg (i + 1)
                (([{ name := some "p.png", mimeType := some "image/png", data := none },
                   { name := some "d.pdf", mimeType := some "application/pdf", data := none }]
                   : List FileObj).getD i default)) :=
  ⟨by decide, Or.inr ⟨1, by decide, by decide⟩,
    image_validation_all_or_nothing envAllOk
      { email := some "a@b.c", name := some "Jane", agree_voluntary := true
        agree_usage := true, agree_data := true, social := none
        images := some
          [{ name := some "p.png", mimeType := some "image/png", data := none },
           { name := some "d.pdf", mimeType := some "application/pdf", data := none }]
        voice := none }
      [{ name := some "p.png", mimeType := some "image/png", data := none },
       { name := some "d.pdf", mimeType := some "application/pdf", data := none }]
      (by decide) rfl (Or.inr ⟨1, by decide, by decide⟩)⟩

/-- The save of image `index` succeeds exactly when its data is truthy,
the stripped base64 body has at least 100 characters, and the filesystem
write succeeds. -/
def imagePersists (env : Env) (folderPath : String) (index : Nat) (img : FileObj) : Bool :=
  strTruthy img.data
    && decide (100 ≤ (stripB64 (img.data.getD "")).length)
    && env.writeOk (folderPath ++ "/" ++ photoFilename index img)

/-- The folder path under which a casting submission's attachments land. -/
def castingFolderPath (env : Env) (f : FormObject) : String :=
  UPLOADS_ROOT ++ "/" ++ safeFolderName (castingSubFolderName env f)

/-- Outcome of `saveBase64File` for an attachment with truthy data. -/
lemma saveBase64File_spec (env : Env) (img : FileObj) (folder filename : String)
    (hd : strTruthy img.data = true) :
    saveBase64File env img folder filename
      = if 100 ≤ (stripB64 (img.data.getD "")).length then
          (if env.writeOk (folder ++ "/" ++ filename) then
            (.ok { path := folder ++ "/" ++ filename
                   url := "/uploads/" ++ encodeURIComponent filename },
             [folder ++ "/" ++ filename, folder ++ "/" ++ filename ++ ".meta.txt"])
          else (.error "fs write failed", []))
        else (.error "File data appears to be empty or too small", []) := by
  obtain ⟨d, hdat⟩ : ∃ d, img.data = some d := by
    cases hsome : img.data
    · rw [hsome] at hd
      simp [strTruthy] at hd
    · exact ⟨_, rfl⟩
  have hdne : d.isEmpty = false := by
    rw [hdat] at hd
    simpa [strTruthy] using hd
  rw [saveBase64File.eq_def, hdat]
  dsimp only
  rw [if_neg (by simp [hdne])]
  simp only [hdat, Option.getD_some]
  by_cases h100 : 100 ≤ (stripB64 d).length
  · have hnem : (stripB64 d).isEmpty = false := by
      cases hie : (stripB64 d).isEmpty
      · rfl
      · exfalso
        have hz : stripB64 d = "" := (String.isEmpty_iff _).mp hie
        rw [hz] at h100
        simp at h100
    rw [if_neg (by
      simp only [hnem, Bool.false_or, decide_eq_true_eq]
      omega)]
    rw [if_pos h100]
  · rw [if_pos (by
      simp only [Bool.or_eq_true, decide_eq_true_eq]
      omega)]
    rw [if_neg h100]

/-- The links pushed by the image loop are exactly one per persisted
attachment, in attachment order. -/
lemma processImagesLoop_links (env : Env) (folderPath : String)
    (imgs : List FileObj) (k : Nat) :
    (processImagesLoop env folderPath imgs k).1
      = (imgs.enumFrom k).filterMap (fun p =>
          if imagePersists env folderPath p.1 p.2
          then some (photoLink p.1 p.2) else none) := by
  induction imgs generalizing k with
  | nil => rfl
  | cons img rest ih =>
    rw [List.enumFrom, List.filterMap_cons, processImagesLoop]
    by_cases hd : strTruthy img.data = true
    · rw [saveBase64File_spec env img folderPath (photoFilename k img) hd]
      by_cases h100 : 100 ≤ (stripB64 (img.data.getD "")).length
      · by_cases hw : env.writeOk (folderPath ++ "/" ++ photoFilename k img) = true
        · have hp : imagePersists env folderPath k img = true := by
            rw [imagePersists, hd, hw]
            simp [h100]
          rw [if_pos hd, if_pos h100, if_pos hw]
          simp only [hp, if_pos]
          rw [ih (k + 1), photoLink]
        · have hp : imagePersists env folderPath k img = false := by
            rw [imagePersists]
            simp [hw]
          rw [if_pos hd, if_pos h100, if_neg hw]
          simp only [hp, Bool.false_eq_true, if_false]
          exact ih (k + 1)
      · have hp : imagePersists env folderPath k img = false := by
          rw [imagePersists]
          simp [h100]
        rw [if_pos hd, if_neg h100]
        simp only [hp, Bool.false_eq_true, if_false]
        exact ih (k + 1)
    · have hp : imagePersists env folderPath k img = false := by
        rw [imagePersists]
        simp [hd]
      rw [if_neg hd]
      simp only [hp, Bool.false_eq_true, if_false]
      exact ih (k + 1)

/-- **C2.** For an accepted submission with image attachments (no voice
sample), the result is a success whose file-reference list has exactly
one entry per successfully persisted attachment, in attachment order,
with `filesProcessed` equal to that count: per-attachment save failures
are excluded from the list but abort neither the sibling saves nor the
submission. -/
theorem partial_save_isolation (env : Env) (f : FormObject) (imgs : List FileObj)
    (hreq : firstMissingField f = none)
    (himg : f.images = some imgs)
    (hne : imgs ≠ [])
    (hval : validateImageFiles imgs = .ok true)
    (hvoice : f.voice = none) :
    ∃ r t, processCastingSubmission env f = (.ok r, t)
      ∧ r.success = true
      ∧ r.fileLinks = (imgs.enumFrom 0).filterMap (fun p =>
          if imagePersists env (castingFolderPath env f) p.1 p.2
          then some (photoLink p.1 p.2) else none)
      ∧ r.filesProcessed = ((imgs.enumFrom 0).filterMap (fun p =>
          if imagePersists env (castingFolderPath env f) p.1 p.2
          then some (photoLink p.1 p.2) else none)).length := by
  have hnee : imgs.isEmpty = false := by
    cases imgs
    · exact absurd rfl hne
    · rfl
  have hj : jsImages f.images = imgs := by rw [himg]; rfl
  have himgs : (if imagesPresent f then validateImageFiles (jsImages f.images)
      else .ok true) = .ok true := by
    rw [if_pos (by rw [imagesPresent, hj, hnee]; rfl), hj]
    exact hval
  have hvo : (if voiceDataPresent f then validateAudioFile f.voice
      else .ok true) = .ok true := by
    rw [if_neg (by rw [voiceDataPresent, hvoice]; simp)]
  have hfl1 : (processFilesInNode env f.images f.voice (castingSubFolderName env f)).1
      = (imgs.enumFrom 0).filterMap (fun p =>
          if imagePersists env (castingFolderPath env f) p.1 p.2
          then some (photoLink p.1 p.2) else none) := by
    rw [processFilesInNode.eq_def, himg, hvoice]
    simp only [jsImages, Option.getD_some, hnee, Bool.not_false, if_true]
    rw [processImagesLoop_links env _ imgs 0, List.append_nil]
    rfl
  rw [processCastingSubmission, hreq, himgs, hvo]
  exact ⟨_, _, rfl, rfl, hfl1, congrArg List.length hfl1⟩

/-- A 120-character base64 payload (well over the 100-character floor and
far under the 5 MiB ceiling). -/
def bigBase64 : String := String.mk (List.replicate 120 'A')

def imgJpg : FileObj :=
  { name := some "a.jpg", mimeType := some "image/jpeg", data := some bigBase64 }

/-- A valid casting form carrying three JPEG attachments. -/
def threeImageForm : FormObject :=
  { email := some "a@b.c", name := some "Jane", agree_voluntary := true
    agree_usage := true, agree_data := true, social := none
    images := some [imgJpg, imgJpg, imgJpg], voice := none }

/-- The environment in which exactly the write of `Photo_2.jpg` fails. -/
def envPhoto2Fails : Env :=
  { nowIso := "2025-10-11T20:00:00.000Z"
    writeOk := fun p => !(p == "uploads/Applicant_Jane_2025-10-11T20-00-00/Photo_2.jpg")
    adminSendOk := true
    userSendOk := true
    sponsorSendOk := true }

set_option maxRecDepth 200000 in
/-- Witness for C2: three images where the second fails to persist yield
exactly the two references for images 1 and 3, and the submission still
succeeds. -/
theorem partial_save_isolation_witness :
    firstMissingField threeImageForm = none
    ∧ ([imgJpg, imgJpg, imgJpg] : List FileObj) ≠ []
    ∧ validateImageFiles [imgJpg, imgJpg, imgJpg] = .ok true
    ∧ (([imgJpg, imgJpg, imgJpg] : List FileObj).enumFrom 0).filterMap (fun p =>
        if imagePersists envPhoto2Fails
            (castingFolderPath envPhoto2Fails threeImageForm) p.1 p.2
        then some (photoLink p.1 p.2) else none)
      = ["Photo 1: /uploads/Photo_1.jpg", "Photo 3: /uploads/Photo_3.jpg"]
    ∧ (∃ r t, processCastingSubmission envPhoto2Fails threeImageForm = (.ok r, t)
        ∧ r.success = true
        ∧ r.fileLinks = (([imgJpg, imgJpg, imgJpg] : List FileObj).enumFrom 0).filterMap (fun p =>
            if imagePersists envPhoto2Fails
                (castingFolderPath envPhoto2Fails threeImageForm) p.1 p.2
            then some (photoLink p.1 p.2) else none)
        ∧ r.filesProcessed
            = ((([imgJpg, imgJpg, imgJpg] : List FileObj).enumFrom 0).filterMap (fun p =>
                if imagePersists envPhoto2Fails
                    (castingFolderPath envPhoto2Fails threeImageForm) p.1 p.2
                then some (photoLink p.1 p.2) else none)).length) :=
  ⟨by decide, by decide, by decide, by decide,
    partial_save_isolation envPhoto2Fails threeImageForm [imgJpg, imgJpg, imgJpg]
      (by decide) rfl (by decide) (by decide) rfl⟩

end ImpactMedia
